import Mathlib

/-!
# Verification of the gracewrap shutdown coordinator

Shallow embedding of the `gracewrap` Go library (graceful-shutdown wrapper
for HTTP/gRPC servers) and proofs about the claims of its specification.

Source layout (Go):
* `config.go` — `Config`, `DefaultConfig`, `ConfigFromEnv`
* `graceful.go` — `Graceful` struct, `New`, `WrapHTTP`, `WrapHTTPWithListener`,
  `WrapGRPC`, `ServeGRPC`, `Wait`, `Shutdown`, `Ready`, handlers
* `shutdown.go` — `shutdown`, `gracefulShutdown`, `waitForInflight`, `setReady`
* `middleware.go` — `httpMiddleware`, interceptors, `incInflight`, `decInflight`
* `metrics.go` — Prometheus counters/gauges/histograms

Modelling conventions:
* Go `time.Duration` / `int64` nanoseconds are modelled as `Int`; where Go's
  wrap-around arithmetic matters (duration products in `ConfigFromEnv`) we
  apply `wrap64` explicitly.
* The in-flight counter `n` (`int64` in Go) is modelled as an unbounded `Int`;
  the claims about it hold under balanced-prefix hypotheses that keep the value
  within `[0, length of the operation sequence]`, far from the `int64` range.
* Concurrency is modelled by arbitrary sequential interleavings: the mutex
  around the counter and the `sync.Once` around the drain body make each
  critical section atomic, so any concurrent execution is equivalent to some
  sequence of the atomic steps modelled here.
* Blocking is modelled explicitly where a claim is about it: `waitForInflight`
  returns `Option` — `none` means the call never returns (blocked forever on
  the condition variable).
-/

namespace Gracewrap

/-! ## Time and machine-integer helpers -/

/-- One second in nanoseconds (`time.Second` in Go, a `time.Duration`). -/
def second : Int := 1000000000

/-- Two's-complement wrap-around of an unbounded integer into `int64`,
as Go arithmetic on `time.Duration`/`int64` behaves on overflow. -/
def wrap64 (x : Int) : Int := (x + 2 ^ 63) % 2 ^ 64 - 2 ^ 63

/-! ## In-flight counter (`middleware.go`)

The Go struct is
```
inflight struct { mu sync.Mutex; n int64; cv *sync.Cond }
```
The mutex and condition variable are modelled by making each critical section
one atomic step and by representing broadcasts explicitly.
-/

/-- The in-flight counter state: field `n` of `Graceful.inflight`. -/
structure Inflight where
  n : Int
deriving Repr, DecidableEq

/-- `incInflight` from `middleware.go`: lock, `n++`, unlock
(the metrics gauge update mirrors `n` and carries no independent state). -/
def incInflight (s : Inflight) : Inflight :=
  { s with n := s.n + 1 }

/-- `decInflight` from `middleware.go`: lock, `n--`,
`if n == 0 { cv.Broadcast() }`, unlock.  The returned `Bool` records whether
the broadcast was issued inside the critical section. -/
def decInflight (s : Inflight) : Inflight × Bool :=
  let n' := s.n - 1
  (⟨n'⟩, n' = 0)

/-- One counter operation: `Begin` (= `incInflight`) or `End` (= `decInflight`). -/
inductive CtrOp
  | inc
  | dec
deriving Repr, DecidableEq

/-- Apply a sequence of counter operations (an interleaving, serialised by the
mutex) to an `Inflight` state. -/
def applyCtrOps : List CtrOp → Inflight → Inflight
  | [], s => s
  | CtrOp.inc :: rest, s => applyCtrOps rest (incInflight s)
  | CtrOp.dec :: rest, s => applyCtrOps rest (decInflight s).1

/-- Number of `Begin` (`incInflight`) operations in a sequence. -/
def countInc : List CtrOp → Nat
  | [] => 0
  | CtrOp.inc :: rest => countInc rest + 1
  | CtrOp.dec :: rest => countInc rest

/-- Number of `End` (`decInflight`) operations in a sequence. -/
def countDec : List CtrOp → Nat
  | [] => 0
  | CtrOp.inc :: rest => countDec rest
  | CtrOp.dec :: rest => countDec rest + 1

/-- The counter after a sequence of operations is the initial value plus
increments minus decrements. -/
theorem applyCtrOps_n (ops : List CtrOp) (s : Inflight) :
    (applyCtrOps ops s).n = s.n + countInc ops - countDec ops := by
  induction ops generalizing s with
  | nil => simp [applyCtrOps, countInc, countDec]
  | cons op rest ih =>
    cases op with
    | inc =>
      simp only [applyCtrOps, countInc, countDec, ih, incInflight]
      push_cast
      ring
    | dec =>
      simp only [applyCtrOps, countInc, countDec, ih, decInflight]
      push_cast
      ring

/-- C3: for any interleaving with no prefix having more `End`s than `Begin`s,
starting from the zero counter, every prefix leaves the counter non-negative,
and a fully balanced sequence ends at exactly zero. -/
theorem inflight_nonneg_and_zero (ops : List CtrOp) (N : Nat)
    (hinc : countInc ops = N) (hdec : countDec ops = N)
    (hpre : ∀ p, p <+: ops → countDec p ≤ countInc p) :
    (∀ p, p <+: ops → 0 ≤ (applyCtrOps p ⟨0⟩).n) ∧
      (applyCtrOps ops ⟨0⟩).n = 0 := by
  have h0 : (⟨0⟩ : Inflight).n = 0 := rfl
  constructor
  · intro p hp
    have h := hpre p hp
    rw [applyCtrOps_n, h0]
    omega
  · rw [applyCtrOps_n, hinc, hdec, h0]
    omega

/-- Witness for C3 at a concrete balanced interleaving of 2 `Begin`s and
2 `End`s. -/
theorem inflight_nonneg_and_zero_witness :
    (∀ p, p <+: [CtrOp.inc, CtrOp.inc, CtrOp.dec, CtrOp.dec] →
        0 ≤ (applyCtrOps p ⟨0⟩).n) ∧
      (applyCtrOps [CtrOp.inc, CtrOp.inc, CtrOp.dec, CtrOp.dec] ⟨0⟩).n = 0 := by
  refine inflight_nonneg_and_zero _ 2 rfl rfl ?_
  intro p hp
  rcases hp with ⟨t, ht⟩
  rcases p with _ | ⟨a, _ | ⟨b, _ | ⟨c, _ | ⟨d, _ | _⟩⟩⟩⟩ <;>
    simp_all [countInc, countDec]

/-! ## `waitForInflight` (`shutdown.go`)

```
func (g *Graceful) waitForInflight(deadline time.Time) bool {
	g.inflight.mu.Lock()
	defer g.inflight.mu.Unlock()
	for g.inflight.n > 0 {
		now := time.Now()
		if now.After(deadline) { return false }
		wait := time.Second
		if now.Add(wait).After(deadline) { wait = time.Until(deadline) }
		timer := time.NewTimer(wait)
		g.inflight.cv.Wait() // This will be woken up by dec() when count reaches 0
		timer.Stop()
	}
	return true
}
```
`cv.Wait()` returns only when a `decInflight` bringing the counter to zero
issues `cv.Broadcast()`; the `timer` is created and stopped but nothing ever
reads its channel, so it does not bound the wait.  The environment is the
finite list of broadcasts that will ever wake this waiter; each carries the
wall-clock time at which the waiter re-acquires the mutex and the counter
value it then observes.
-/

/-- One wake-up of a waiter parked in `cv.Wait()`: the time at which it
resumes and the counter value it observes after re-acquiring the mutex. -/
structure WakeEvent where
  time : Int
  count : Int
deriving Repr, DecidableEq

/-- `waitForInflight` from `shutdown.go`, relative to the list of future
broadcasts that wake this waiter.  Returns `some (drained, waits)` when the
call returns (`waits` counts the executed `cv.Wait()` calls); returns `none`
when the call never returns — the loop body parks in `cv.Wait()` and no
broadcast ever arrives.  The `wait` duration computed from the absolute
deadline is reproduced faithfully as the (unused) binding it is in the
source. -/
def waitForInflight (n now deadline : Int) (wakes : List WakeEvent) :
    Option (Bool × Nat) :=
  if n ≤ 0 then some (true, 0)
  else if deadline < now then some (false, 0)
  else
    let wait := if deadline < now + second then deadline - now else second
    match wakes with
    | [] => none
    | w :: rest =>
      match waitForInflight w.count w.time deadline rest with
      | none => none
      | some (b, k) => some (b, k + 1)
termination_by wakes.length
decreasing_by simp

/-- C7: with the counter positive and the deadline already in the past, the
call returns `drained = false` immediately, executing zero `cv.Wait()` calls,
whatever wake-ups the environment would have provided. -/
theorem waitForInflight_past_deadline (n now deadline : Int)
    (hn : 0 < n) (hd : deadline < now) (wakes : List WakeEvent) :
    waitForInflight n now deadline wakes = some (false, 0) := by
  unfold waitForInflight
  rw [if_neg (by omega), if_pos hd]

/-- Witness for C7: counter 1, now = 0, deadline one second in the past. -/
theorem waitForInflight_past_deadline_witness :
    waitForInflight 1 0 (-second) [⟨5, 0⟩] = some (false, 0) :=
  waitForInflight_past_deadline 1 0 (-second) (by norm_num) (by norm_num [second])
    [⟨5, 0⟩]

/-- C1 (failing execution): with the counter positive, the deadline one second
in the future, and no decrement ever arriving (no broadcast), the call never
returns — it parks in `cv.Wait()` forever instead of returning
`drained = false` when the deadline passes, because the computed per-iteration
`wait` never arms a wake-up. -/
theorem waitForInflight_blocks_forever :
    waitForInflight 1 0 second [] = none := by
  unfold waitForInflight
  norm_num [second]

/-! ### Broadcast ordering inside `decInflight` (C4)

The critical section of `decInflight` is modelled as its exact action
sequence, to state that the broadcast happens before the mutex is released. -/

/-- The individual actions of `decInflight`'s critical section. -/
inductive DecAction
  | lock
  | decrement
  | broadcast
  | unlock
deriving Repr, DecidableEq

/-- The action trace of `decInflight` from `middleware.go`, as a function of
the counter value `n` on entry: lock, `n--`, broadcast iff the new value is
zero, unlock. -/
def decInflightTrace (n : Int) : List DecAction :=
  [DecAction.lock, DecAction.decrement] ++
    (if n - 1 = 0 then [DecAction.broadcast] else []) ++ [DecAction.unlock]

/-- C4: an `End` that brings the counter from 1 to 0 broadcasts, the broadcast
precedes the mutex release in its critical section, and a waiter parked in
`waitForInflight` with a deadline still in the future that is woken by this
broadcast (observing counter 0) returns `drained = true`. -/
theorem dec_to_zero_broadcasts_and_wakes (s : Inflight) (now deadline t : Int)
    (h1 : s.n = 1) (h2 : now ≤ deadline) :
    (decInflight s).2 = true ∧
      (decInflightTrace s.n).indexOf DecAction.broadcast <
        (decInflightTrace s.n).indexOf DecAction.unlock ∧
      waitForInflight s.n now deadline [⟨t, (decInflight s).1.n⟩] =
        some (true, 1) := by
  refine ⟨by simp [decInflight, h1], ?_, ?_⟩
  · rw [h1]
    decide
  · have hdec : (decInflight s).1.n = 0 := by simp [decInflight, h1]
    rw [h1, hdec]
    unfold waitForInflight
    rw [if_neg (by norm_num), if_neg (by omega)]
    simp only
    unfold waitForInflight
    norm_num

/-- Witness for C4: counter 1, waiter entered at time 0 with deadline one
second away, woken at time 5 by the broadcast of the decrement to zero. -/
theorem dec_to_zero_broadcasts_and_wakes_witness :
    (decInflight ⟨1⟩).2 = true ∧
      (decInflightTrace (⟨1⟩ : Inflight).n).indexOf DecAction.broadcast <
        (decInflightTrace (⟨1⟩ : Inflight).n).indexOf DecAction.unlock ∧
      waitForInflight (⟨1⟩ : Inflight).n 0 second
          [⟨5, (decInflight ⟨1⟩).1.n⟩] = some (true, 1) :=
  dec_to_zero_broadcasts_and_wakes ⟨1⟩ 0 second 5 rfl (by norm_num [second])

/-! ## Configuration (`config.go`)

`Config` is modelled with its three durations (Go `time.Duration` = `int64`
nanoseconds, here `Int` with explicit `wrap64` at the one multiplication that
can overflow) and the metrics switch; the logger and Prometheus registry
fields carry no behaviour relevant to the claims. -/

/-- The behavioural fields of `Config` from `config.go`. -/
structure Config where
  drainTimeout : Int
  hardStopTimeout : Int
  loadBalancerDelay : Int
  enableMetrics : Bool
deriving Repr, DecidableEq

/-- `DefaultConfig` from `config.go`: 25s drain, 5s hard stop, 1s load-balancer
delay, metrics disabled. -/
def DefaultConfig : Config :=
  { drainTimeout := 25 * second
    hardStopTimeout := 5 * second
    loadBalancerDelay := 1 * second
    enableMetrics := false }

/-- Digits of a base-10 numeral; `none` if the list is empty or contains a
non-digit. -/
def digitsToNat : List Char → Option Nat
  | [] => none
  | [c] => if c.isDigit then some (c.toNat - '0'.toNat) else none
  | c :: rest =>
    if c.isDigit then
      match digitsToNat rest with
      | some m => some ((c.toNat - '0'.toNat) * 10 ^ rest.length + m)
      | none => none
    else none

/-- Go `strconv.Atoi`: optional sign, then a non-empty run of base-10 digits;
errors (here `none`) on anything else and on values outside the `int64`
range (Go reports `ErrRange`, which `ConfigFromEnv` treats as failure). -/
def Atoi (s : String) : Option Int :=
  let signed : Bool × List Char :=
    match s.data with
    | '-' :: rest => (true, rest)
    | '+' :: rest => (false, rest)
    | l => (false, l)
  match digitsToNat signed.2 with
  | none => none
  | some m =>
    let v : Int := if signed.1 then -(m : Int) else (m : Int)
    if v < -(2 ^ 63) ∨ 2 ^ 63 - 1 < v then none else some v

/-- Go `strconv.ParseBool`: accepts exactly
`1, t, T, TRUE, true, True` and `0, f, F, FALSE, false, False`. -/
def ParseBool (s : String) : Option Bool :=
  if s = "1" ∨ s = "t" ∨ s = "T" ∨ s = "TRUE" ∨ s = "true" ∨ s = "True" then
    some true
  else if s = "0" ∨ s = "f" ∨ s = "F" ∨ s = "FALSE" ∨ s = "false" ∨
      s = "False" then
    some false
  else none

/-- The `DRAIN_TIMEOUT_SECONDS` block of `ConfigFromEnv`: if the variable is
set and parses to a positive int, set `DrainTimeout` to that many seconds
(`time.Duration(seconds) * time.Second`, wrapping as Go `int64` arithmetic). -/
def parseDrain (val : String) (cfg : Config) : Config :=
  if val ≠ "" then
    match Atoi val with
    | some s => if 0 < s then { cfg with drainTimeout := wrap64 (s * second) }
                else cfg
    | none => cfg
  else cfg

/-- The `HARD_STOP_TIMEOUT_SECONDS` block of `ConfigFromEnv`. -/
def parseHardStop (val : String) (cfg : Config) : Config :=
  if val ≠ "" then
    match Atoi val with
    | some s => if 0 < s then
                  { cfg with hardStopTimeout := wrap64 (s * second) }
                else cfg
    | none => cfg
  else cfg

/-- The `LOAD_BALANCER_DELAY_SECONDS` block of `ConfigFromEnv`: here Go
accepts `seconds >= 0`, not just positive values. -/
def parseLBDelay (val : String) (cfg : Config) : Config :=
  if val ≠ "" then
    match Atoi val with
    | some s => if 0 ≤ s then
                  { cfg with loadBalancerDelay := wrap64 (s * second) }
                else cfg
    | none => cfg
  else cfg

/-- The `ENABLE_METRICS` block of `ConfigFromEnv`. -/
def parseEnableMetrics (val : String) (cfg : Config) : Config :=
  if val ≠ "" then
    match ParseBool val with
    | some b => { cfg with enableMetrics := b }
    | none => cfg
  else cfg

/-- `ConfigFromEnv` from `config.go`.  `env` is the process environment as
`os.Getenv` exposes it: a total map from names to values, with `""` for unset
variables (Go cannot distinguish unset from empty here, and the code treats
both as absent). -/
def ConfigFromEnv (env : String → String) : Config :=
  parseEnableMetrics (env "ENABLE_METRICS")
    (parseLBDelay (env "LOAD_BALANCER_DELAY_SECONDS")
      (parseHardStop (env "HARD_STOP_TIMEOUT_SECONDS")
        (parseDrain (env "DRAIN_TIMEOUT_SECONDS") DefaultConfig)))

/-- Each parse block touches only its own field. -/
theorem parseDrain_other (val : String) (cfg : Config) :
    (parseDrain val cfg).hardStopTimeout = cfg.hardStopTimeout ∧
      (parseDrain val cfg).loadBalancerDelay = cfg.loadBalancerDelay ∧
      (parseDrain val cfg).enableMetrics = cfg.enableMetrics := by
  unfold parseDrain
  split <;> [skip; exact ⟨rfl, rfl, rfl⟩]
  rcases h : Atoi val with _ | s
  · exact ⟨rfl, rfl, rfl⟩
  · dsimp only
    split <;> exact ⟨rfl, rfl, rfl⟩

theorem parseHardStop_other (val : String) (cfg : Config) :
    (parseHardStop val cfg).drainTimeout = cfg.drainTimeout ∧
      (parseHardStop val cfg).loadBalancerDelay = cfg.loadBalancerDelay ∧
      (parseHardStop val cfg).enableMetrics = cfg.enableMetrics := by
  unfold parseHardStop
  split <;> [skip; exact ⟨rfl, rfl, rfl⟩]
  rcases h : Atoi val with _ | s
  · exact ⟨rfl, rfl, rfl⟩
  · dsimp only
    split <;> exact ⟨rfl, rfl, rfl⟩

theorem parseLBDelay_other (val : String) (cfg : Config) :
    (parseLBDelay val cfg).drainTimeout = cfg.drainTimeout ∧
      (parseLBDelay val cfg).hardStopTimeout = cfg.hardStopTimeout ∧
      (parseLBDelay val cfg).enableMetrics = cfg.enableMetrics := by
  unfold parseLBDelay
  split <;> [skip; exact ⟨rfl, rfl, rfl⟩]
  rcases h : Atoi val with _ | s
  · exact ⟨rfl, rfl, rfl⟩
  · dsimp only
    split <;> exact ⟨rfl, rfl, rfl⟩

theorem parseEnableMetrics_other (val : String) (cfg : Config) :
    (parseEnableMetrics val cfg).drainTimeout = cfg.drainTimeout ∧
      (parseEnableMetrics val cfg).hardStopTimeout = cfg.hardStopTimeout ∧
      (parseEnableMetrics val cfg).loadBalancerDelay =
        cfg.loadBalancerDelay := by
  unfold parseEnableMetrics
  split <;> [skip; exact ⟨rfl, rfl, rfl⟩]
  rcases h : ParseBool val with _ | b <;> exact ⟨rfl, rfl, rfl⟩

/-- A drain-timeout value that does not parse, or parses non-positive, leaves
the config unchanged. -/
theorem parseDrain_noop (val : String) (cfg : Config)
    (h : Atoi val = none ∨ ∃ s, Atoi val = some s ∧ s ≤ 0) :
    parseDrain val cfg = cfg := by
  unfold parseDrain
  split
  · rcases h with h | ⟨s, hs, hneg⟩
    · rw [h]
    · rw [hs]
      dsimp only
      rw [if_neg (by omega)]
  · rfl

/-- A hard-stop value that does not parse, or parses non-positive, leaves the
config unchanged. -/
theorem parseHardStop_noop (val : String) (cfg : Config)
    (h : Atoi val = none ∨ ∃ s, Atoi val = some s ∧ s ≤ 0) :
    parseHardStop val cfg = cfg := by
  unfold parseHardStop
  split
  · rcases h with h | ⟨s, hs, hneg⟩
    · rw [h]
    · rw [hs]
      dsimp only
      rw [if_neg (by omega)]
  · rfl

/-- A load-balancer-delay value that does not parse, or parses negative,
leaves the config unchanged. -/
theorem parseLBDelay_noop (val : String) (cfg : Config)
    (h : Atoi val = none ∨ ∃ s, Atoi val = some s ∧ s < 0) :
    parseLBDelay val cfg = cfg := by
  unfold parseLBDelay
  split
  · rcases h with h | ⟨s, hs, hneg⟩
    · rw [h]
    · rw [hs]
      dsimp only
      rw [if_neg (by omega)]
  · rfl

/-- A metrics value that does not parse as a boolean leaves the config
unchanged. -/
theorem parseEnableMetrics_noop (val : String) (cfg : Config)
    (h : ParseBool val = none) : parseEnableMetrics val cfg = cfg := by
  unfold parseEnableMetrics
  split
  · rw [h]
  · rfl

/-- A non-negative load-balancer-delay value is accepted: the field becomes
that many seconds (as Go `int64` duration arithmetic computes it). -/
theorem parseLBDelay_accept (val : String) (cfg : Config) (s : Int)
    (hs : Atoi val = some s) (hpos : 0 ≤ s) :
    (parseLBDelay val cfg).loadBalancerDelay = wrap64 (s * second) := by
  have hne : val ≠ "" := by
    intro h
    rw [h] at hs
    exact Option.noConfusion hs
  unfold parseLBDelay
  rw [if_pos hne, hs]
  dsimp only
  rw [if_pos hpos]

/-- An unparsable value turns a set variable into a no-op, so `""` may be
treated uniformly: `Atoi "" = none`. -/
theorem atoi_empty : Atoi "" = none := rfl

/-- C9: `ConfigFromEnv` keeps the defaults (25 s drain, 5 s hard stop, 1 s
load-balancer delay, metrics off) for every variable that is unset or holds a
non-numeric / non-boolean value; negative drain and hard-stop values are
ignored; any non-negative load-balancer delay is accepted. -/
theorem configFromEnv_defaults (env : String → String) :
    ((env "DRAIN_TIMEOUT_SECONDS" = "" ∨
        Atoi (env "DRAIN_TIMEOUT_SECONDS") = none) →
      (ConfigFromEnv env).drainTimeout = 25 * second) ∧
    ((env "HARD_STOP_TIMEOUT_SECONDS" = "" ∨
        Atoi (env "HARD_STOP_TIMEOUT_SECONDS") = none) →
      (ConfigFromEnv env).hardStopTimeout = 5 * second) ∧
    ((env "LOAD_BALANCER_DELAY_SECONDS" = "" ∨
        Atoi (env "LOAD_BALANCER_DELAY_SECONDS") = none) →
      (ConfigFromEnv env).loadBalancerDelay = 1 * second) ∧
    ((env "ENABLE_METRICS" = "" ∨ ParseBool (env "ENABLE_METRICS") = none) →
      (ConfigFromEnv env).enableMetrics = false) ∧
    (∀ s, Atoi (env "DRAIN_TIMEOUT_SECONDS") = some s → s < 0 →
      (ConfigFromEnv env).drainTimeout = 25 * second) ∧
    (∀ s, Atoi (env "HARD_STOP_TIMEOUT_SECONDS") = some s → s < 0 →
      (ConfigFromEnv env).hardStopTimeout = 5 * second) ∧
    (∀ s, Atoi (env "LOAD_BALANCER_DELAY_SECONDS") = some s → 0 ≤ s →
      (ConfigFromEnv env).loadBalancerDelay = wrap64 (s * second)) := by
  have hdrain : (ConfigFromEnv env).drainTimeout =
      (parseDrain (env "DRAIN_TIMEOUT_SECONDS") DefaultConfig).drainTimeout := by
    unfold ConfigFromEnv
    rw [(parseEnableMetrics_other _ _).1, (parseLBDelay_other _ _).1,
      (parseHardStop_other _ _).1]
  have hhard : (ConfigFromEnv env).hardStopTimeout =
      (parseHardStop (env "HARD_STOP_TIMEOUT_SECONDS")
        (parseDrain (env "DRAIN_TIMEOUT_SECONDS")
          DefaultConfig)).hardStopTimeout := by
    unfold ConfigFromEnv
    rw [(parseEnableMetrics_other _ _).2.1, (parseLBDelay_other _ _).2.1]
  have hlb : (ConfigFromEnv env).loadBalancerDelay =
      (parseLBDelay (env "LOAD_BALANCER_DELAY_SECONDS")
        (parseHardStop (env "HARD_STOP_TIMEOUT_SECONDS")
          (parseDrain (env "DRAIN_TIMEOUT_SECONDS")
            DefaultConfig))).loadBalancerDelay := by
    unfold ConfigFromEnv
    rw [(parseEnableMetrics_other _ _).2.2]
  refine ⟨?_, ?_, ?_, ?_, ?_, ?_, ?_⟩
  · intro h
    have hnone : Atoi (env "DRAIN_TIMEOUT_SECONDS") = none := by
      rcases h with h | h
      · rw [h]; exact atoi_empty
      · exact h
    rw [hdrain, parseDrain_noop _ _ (Or.inl hnone)]
    rfl
  · intro h
    have hnone : Atoi (env "HARD_STOP_TIMEOUT_SECONDS") = none := by
      rcases h with h | h
      · rw [h]; exact atoi_empty
      · exact h
    rw [hhard, parseHardStop_noop _ _ (Or.inl hnone),
      (parseDrain_other _ _).1]
    rfl
  · intro h
    have hnone : Atoi (env "LOAD_BALANCER_DELAY_SECONDS") = none := by
      rcases h with h | h
      · rw [h]; exact atoi_empty
      · exact h
    rw [hlb, parseLBDelay_noop _ _ (Or.inl hnone),
      (parseHardStop_other _ _).2.1, (parseDrain_other _ _).2.1]
    rfl
  · intro h
    have hnone : ParseBool (env "ENABLE_METRICS") = none := by
      rcases h with h | h
      · rw [h]; rfl
      · exact h
    unfold ConfigFromEnv
    rw [parseEnableMetrics_noop _ _ hnone, (parseLBDelay_other _ _).2.2,
      (parseHardStop_other _ _).2.2, (parseDrain_other _ _).2.2]
    rfl
  · intro s hs hneg
    rw [hdrain, parseDrain_noop _ _ (Or.inr ⟨s, hs, by omega⟩)]
    rfl
  · intro s hs hneg
    rw [hhard, parseHardStop_noop _ _ (Or.inr ⟨s, hs, by omega⟩),
      (parseDrain_other _ _).1]
    rfl
  · intro s hs hpos
    rw [hlb, parseLBDelay_accept _ _ s hs hpos]

/-- A concrete environment exercising C9: non-numeric drain value, negative
hard-stop value, zero load-balancer delay, non-boolean metrics value. -/
def envC9 : String → String := fun name =>
  if name = "DRAIN_TIMEOUT_SECONDS" then "abc"
  else if name = "HARD_STOP_TIMEOUT_SECONDS" then "-3"
  else if name = "LOAD_BALANCER_DELAY_SECONDS" then "0"
  else if name = "ENABLE_METRICS" then "yes"
  else ""

/-- Witness for C9 at `envC9`. -/
theorem configFromEnv_defaults_witness :
    (ConfigFromEnv envC9).drainTimeout = 25 * second ∧
      (ConfigFromEnv envC9).hardStopTimeout = 5 * second ∧
      (ConfigFromEnv envC9).loadBalancerDelay = wrap64 (0 * second) ∧
      (ConfigFromEnv envC9).enableMetrics = false := by
  have h := configFromEnv_defaults envC9
  exact ⟨h.1 (Or.inr (by decide)),
    h.2.2.2.2.2.1 (-3) (by decide) (by norm_num),
    h.2.2.2.2.2.2 0 (by decide) le_rfl,
    h.2.2.2.1 (Or.inr (by decide))⟩

/-! ## The `Graceful` wrapper (`graceful.go`, `shutdown.go`)

State-changing behaviour of the wrapper.  Goroutines, sockets and loggers are
abstracted away: what remains is the registry of tracked servers, the
readiness flag, the in-flight counter, the `sync.Once` flag, and the metric
counters the claims mention.  Sleeps and log lines carry no state. -/

/-- An HTTP handler chain.  `app` is an application handler (identified by a
tag); `middleware` is `httpMiddleware` installed around an inner handler. -/
inductive Handler
  | app (tag : Nat)
  | middleware (inner : Handler)
deriving Repr, DecidableEq

/-- An `http.Server`: its address and its `Handler` field (`none` models a nil
`Handler`, under which Go serves through `http.DefaultServeMux`). -/
structure HTTPServer where
  addr : String
  handler : Option Handler
deriving Repr, DecidableEq

/-- The state-bearing fields of the Go `Graceful` struct, together with the
metric counters observed by the claims.  `metricsEnabled` stands for
`g.metrics != nil`; `serving` counts serving goroutines launched;
`shutdownsTotal` and `durationObs` are the `gracewrap_shutdowns_total`
counter and the number of `gracewrap_shutdown_duration_seconds`
observations. -/
structure Graceful where
  config : Config
  ready : Bool
  inflight : Inflight
  httpServers : List HTTPServer
  grpcServers : Nat
  listeners : Nat
  serving : Nat
  stopOnceDone : Bool
  metricsEnabled : Bool
  shutdownsTotal : Nat
  durationObs : Nat
  httpRequestsTotal : Nat
deriving Repr, DecidableEq

/-- `New` from `graceful.go`: readiness defaults to true, counter zero, empty
registries, metrics iff enabled in the config. -/
def New (cfg : Config) : Graceful :=
  { config := cfg
    ready := true
    inflight := ⟨0⟩
    httpServers := []
    grpcServers := 0
    listeners := 0
    serving := 0
    stopOnceDone := false
    metricsEnabled := cfg.enableMetrics
    shutdownsTotal := 0
    durationObs := 0
    httpRequestsTotal := 0 }

/-- `setReady` from `shutdown.go` (the metrics gauge update mirrors the flag
and carries no independent state). -/
def setReady (g : Graceful) (ready : Bool) : Graceful :=
  { g with ready := ready }

/-- `httpMiddleware` from `middleware.go`: wraps a handler with in-flight
tracking. -/
def httpMiddleware (next : Handler) : Handler :=
  Handler.middleware next

/-- `WrapHTTP` from `graceful.go`: wraps the handler iff it is non-nil, starts
the server in a goroutine (where `ListenAndServe` performs the bind and any
error — including a bind failure — is only logged), appends the server to
`httpServers`, and returns `nil`.  `bindOk` is the outcome of the asynchronous
bind inside the goroutine; the function's result and the registration do not
depend on it.  The returned `Option String` is the Go `error`. -/
def WrapHTTP (g : Graceful) (server : HTTPServer) (bindOk : Bool) :
    Graceful × Option String :=
  let server' :=
    match server.handler with
    | some h => { server with handler := some (httpMiddleware h) }
    | none => server
  ({ g with
      serving := g.serving + 1
      httpServers := g.httpServers ++ [server'] }, none)

/-- `WrapHTTPWithListener` from `graceful.go`: identical handler wrapping and
registration, plus registration of the pre-bound listener (binding already
happened at the caller, so no bind can fail here). -/
def WrapHTTPWithListener (g : Graceful) (server : HTTPServer) :
    Graceful × Option String :=
  let server' :=
    match server.handler with
    | some h => { server with handler := some (httpMiddleware h) }
    | none => server
  ({ g with
      serving := g.serving + 1
      httpServers := g.httpServers ++ [server']
      listeners := g.listeners + 1 }, none)

/-- `WrapGRPC` from `graceful.go`: registers a pre-built gRPC server and its
listener (no interceptors can be installed late). -/
def WrapGRPC (g : Graceful) : Graceful × Option String :=
  ({ g with
      serving := g.serving + 1
      grpcServers := g.grpcServers + 1
      listeners := g.listeners + 1 }, none)

/-- `ServeGRPC` from `graceful.go`: `net.Listen` happens synchronously; on
failure the error is returned and nothing is started or registered.  `bindOk`
is the outcome of that synchronous bind. -/
def ServeGRPC (g : Graceful) (bindOk : Bool) : Graceful × Option String :=
  if bindOk then
    ({ g with
        serving := g.serving + 1
        grpcServers := g.grpcServers + 1
        listeners := g.listeners + 1 }, none)
  else (g, some "listen error")

/-- The servers the per-server stop-accept phase of `gracefulShutdown`
(`shutdown.go`) iterates over: exactly the registered `httpServers`. -/
def gracefulShutdownHTTPTargets (g : Graceful) : List HTTPServer :=
  g.httpServers

/-- The named steps of the one-time drain body in `shutdown` (`shutdown.go`),
in the order they can occur. -/
inductive ShutdownStep
  | incShutdowns
  | setReadyFalse
  | lbSleep
  | stopAcceptServers
  | waitInflight
  | hardStopSleep
  | observeDuration
  | logCompleted
deriving Repr, DecidableEq

/-- The body of `g.stopOnce.Do(func() { ... })` in `shutdown` from
`shutdown.go`, returning the post-state and the trace of executed steps in
source order: metrics shutdown-count increment, readiness flip, optional
load-balancer sleep, per-server stop-accept (`gracefulShutdown`), in-flight
wait (`waitForInflight`), optional hard-stop sleep, metrics duration
observation, completion log. -/
def shutdownBodyRun (g : Graceful) : Graceful × List ShutdownStep :=
  let p1 : Graceful × List ShutdownStep :=
    if g.metricsEnabled then
      ({ g with shutdownsTotal := g.shutdownsTotal + 1 },
        [ShutdownStep.incShutdowns])
    else (g, [])
  let g2 := setReady p1.1 false
  let t2 := p1.2 ++ [ShutdownStep.setReadyFalse]
  let t3 := t2 ++
    (if 0 < g.config.loadBalancerDelay then [ShutdownStep.lbSleep] else [])
  let t4 := t3 ++ [ShutdownStep.stopAcceptServers]
  let t5 := t4 ++ [ShutdownStep.waitInflight]
  let t6 := t5 ++
    (if 0 < g.config.hardStopTimeout then [ShutdownStep.hardStopSleep]
     else [])
  let p7 : Graceful × List ShutdownStep :=
    if g.metricsEnabled then
      ({ g2 with durationObs := g2.durationObs + 1 },
        t6 ++ [ShutdownStep.observeDuration])
    else (g2, t6)
  (p7.1, p7.2 ++ [ShutdownStep.logCompleted])

/-- `shutdown` from `shutdown.go`: `g.stopOnce.Do(body)`.  A call finding the
`Once` already used returns with the state unchanged (and, per `sync.Once`,
only after the single execution has finished). -/
def shutdown (g : Graceful) : Graceful :=
  if g.stopOnceDone then g
  else { (shutdownBodyRun g).1 with stopOnceDone := true }

/-- `Shutdown` from `graceful.go`: the explicit programmatic trigger; calls
`g.shutdown()`. -/
def Shutdown (g : Graceful) : Graceful :=
  shutdown g

/-- The ways the drain can be triggered: the explicit `Shutdown()` call, or
`Wait(ctx)` observing either context cancellation or an OS signal — each
branch of `Wait`'s `select` calls `g.shutdown()`. -/
inductive Trigger
  | explicitCall
  | waitCtxDone
  | waitSignal
deriving Repr, DecidableEq

/-- Fire one trigger: all three paths converge on `g.shutdown()`. -/
def fireTrigger (g : Graceful) : Trigger → Graceful
  | Trigger.explicitCall => Shutdown g
  | Trigger.waitCtxDone => shutdown g
  | Trigger.waitSignal => shutdown g

/-- Fire a sequence of triggers (any interleaving of trigger sources, as
serialised by the `sync.Once`). -/
def fireTriggers : List Trigger → Graceful → Graceful
  | [], g => g
  | t :: rest, g => fireTriggers rest (fireTrigger g t)

/-- After any call to `shutdown`, the `sync.Once` is used up. -/
theorem shutdown_stopOnceDone (g : Graceful) :
    (shutdown g).stopOnceDone = true := by
  unfold shutdown
  split
  · assumption
  · rfl

/-- A `shutdown` call that finds the `Once` used returns the state
unchanged. -/
theorem shutdown_already_done (g : Graceful) (h : g.stopOnceDone = true) :
    shutdown g = g := by
  simp [shutdown, h]

/-- Every trigger path calls `g.shutdown()`. -/
theorem fireTrigger_eq_shutdown (g : Graceful) (t : Trigger) :
    fireTrigger g t = shutdown g := by
  cases t <;> rfl

/-- Once the drain has run, further triggers change nothing. -/
theorem fireTriggers_after_done (ts : List Trigger) (g : Graceful)
    (h : g.stopOnceDone = true) : fireTriggers ts g = g := by
  induction ts with
  | nil => rfl
  | cons t rest ih =>
    show fireTriggers rest (fireTrigger g t) = g
    rw [fireTrigger_eq_shutdown, shutdown_already_done g h, ih]

/-- The effect of the one-time body on the metric counters and the flag. -/
theorem shutdownBodyRun_fields (g : Graceful) :
    (shutdownBodyRun g).1.shutdownsTotal =
        g.shutdownsTotal + (if g.metricsEnabled then 1 else 0) ∧
      (shutdownBodyRun g).1.durationObs =
        g.durationObs + (if g.metricsEnabled then 1 else 0) ∧
      (shutdownBodyRun g).1.ready = false := by
  by_cases hm : g.metricsEnabled <;> simp [shutdownBodyRun, setReady, hm]

/-- C2: any non-empty sequence of shutdown triggers — explicit `Shutdown()`
calls and `Wait()` signal/context deliveries, in any order — is equivalent to
a single `shutdown` call: the drain body runs exactly once, the
shutdown-count metric and the duration-observation count each rise by exactly
one (when metrics are enabled, by zero otherwise), and every repeat
invocation leaves the state unchanged. -/
theorem shutdown_exactly_once (g : Graceful) (ts : List Trigger)
    (hne : ts ≠ []) (h0 : g.stopOnceDone = false) :
    fireTriggers ts g = shutdown g ∧
      (fireTriggers ts g).shutdownsTotal =
        g.shutdownsTotal + (if g.metricsEnabled then 1 else 0) ∧
      (fireTriggers ts g).durationObs =
        g.durationObs + (if g.metricsEnabled then 1 else 0) := by
  obtain ⟨t, rest, rfl⟩ : ∃ t rest, ts = t :: rest := by
    cases ts with
    | nil => exact absurd rfl hne
    | cons t rest => exact ⟨t, rest, rfl⟩
  have hfire : fireTriggers (t :: rest) g = shutdown g := by
    show fireTriggers rest (fireTrigger g t) = shutdown g
    rw [fireTrigger_eq_shutdown,
      fireTriggers_after_done rest _ (shutdown_stopOnceDone g)]
  have hbody : shutdown g = { (shutdownBodyRun g).1 with stopOnceDone := true } := by
    simp [shutdown, h0]
  refine ⟨hfire, ?_, ?_⟩
  · rw [hfire, hbody]
    exact (shutdownBodyRun_fields g).1
  · rw [hfire, hbody]
    exact (shutdownBodyRun_fields g).2.1

/-- A `Graceful` fresh from `New` with metrics enabled. -/
def gMetrics : Graceful := New { DefaultConfig with enableMetrics := true }

/-- Witness for C2: three triggers (an explicit call, a signal, a context
cancellation) on a fresh metrics-enabled wrapper behave as one `shutdown` and
bump each metric exactly once. -/
theorem shutdown_exactly_once_witness :
    fireTriggers [Trigger.explicitCall, Trigger.waitSignal, Trigger.waitCtxDone]
        gMetrics = shutdown gMetrics ∧
      (fireTriggers [Trigger.explicitCall, Trigger.waitSignal,
          Trigger.waitCtxDone] gMetrics).shutdownsTotal =
        gMetrics.shutdownsTotal + (if gMetrics.metricsEnabled then 1 else 0) ∧
      (fireTriggers [Trigger.explicitCall, Trigger.waitSignal,
          Trigger.waitCtxDone] gMetrics).durationObs =
        gMetrics.durationObs + (if gMetrics.metricsEnabled then 1 else 0) :=
  shutdown_exactly_once gMetrics _ (by decide) (by rfl)

/-! ## Request serving and the public operation set -/

/-- The effect on the `Graceful` state of one request flowing through a
handler chain: `httpMiddleware` (from `middleware.go`) increments the
in-flight counter, bumps the HTTP request counter when metrics are enabled,
runs the inner handler, and decrements on exit; an application handler does
not touch the wrapper's state. -/
def handlerEffect (g : Graceful) : Handler → Graceful
  | Handler.app _ => g
  | Handler.middleware inner =>
    let g1 := { g with inflight := incInflight g.inflight }
    let g2 :=
      if g1.metricsEnabled then
        { g1 with httpRequestsTotal := g1.httpRequestsTotal + 1 }
      else g1
    let g3 := handlerEffect g2 inner
    { g3 with inflight := (decInflight g3.inflight).1 }

/-- One request served by an `http.Server` with the given `Handler` field;
a nil handler (`none`) means Go serves through `http.DefaultServeMux`,
outside any gracewrap tracking. -/
def serveRequest (g : Graceful) : Option Handler → Graceful
  | some h => handlerEffect g h
  | none => g

/-- The state-changing operations the library exposes (read-only calls such
as `Ready()` and the health handlers are identities on this state). -/
inductive LibOp
  | wrapHTTP (server : HTTPServer) (bindOk : Bool)
  | wrapHTTPWithListener (server : HTTPServer)
  | wrapGRPC
  | serveGRPC (bindOk : Bool)
  | trigger (t : Trigger)
  | serveReq (h : Option Handler)
  | beginReq
  | endReq
  | readyCheck
deriving Repr, DecidableEq

/-- Interpretation of one library operation. -/
def libStep (g : Graceful) : LibOp → Graceful
  | LibOp.wrapHTTP server bindOk => (WrapHTTP g server bindOk).1
  | LibOp.wrapHTTPWithListener server => (WrapHTTPWithListener g server).1
  | LibOp.wrapGRPC => (WrapGRPC g).1
  | LibOp.serveGRPC bindOk => (ServeGRPC g bindOk).1
  | LibOp.trigger t => fireTrigger g t
  | LibOp.serveReq h => serveRequest g h
  | LibOp.beginReq => { g with inflight := incInflight g.inflight }
  | LibOp.endReq => { g with inflight := (decInflight g.inflight).1 }
  | LibOp.readyCheck => g

/-- Interpretation of a sequence of library operations. -/
def libSteps : List LibOp → Graceful → Graceful
  | [], g => g
  | op :: rest, g => libSteps rest (libStep g op)

/-- Request serving never writes the readiness flag. -/
theorem handlerEffect_ready (h : Handler) (g : Graceful) :
    (handlerEffect g h).ready = g.ready := by
  induction h generalizing g with
  | app _ => rfl
  | middleware inner ih =>
    show ({ handlerEffect _ inner with
        inflight := (decInflight (handlerEffect _ inner).inflight).1 }).ready = _
    rw [ih]
    by_cases hm : g.metricsEnabled <;> simp [incInflight, hm]

/-- No single library operation flips the readiness flag back to true. -/
theorem libStep_ready_false (g : Graceful) (op : LibOp)
    (h : g.ready = false) : (libStep g op).ready = false := by
  cases op with
  | wrapHTTP server bindOk => exact h
  | wrapHTTPWithListener server => exact h
  | wrapGRPC => exact h
  | serveGRPC bindOk =>
    cases bindOk <;> simp [libStep, ServeGRPC, h]
  | trigger t =>
    show (fireTrigger g t).ready = false
    rw [fireTrigger_eq_shutdown]
    unfold shutdown
    split
    · exact h
    · exact (shutdownBodyRun_fields g).2.2
  | serveReq hd =>
    cases hd with
    | none => exact h
    | some hh => exact (handlerEffect_ready hh g).trans h
  | beginReq => exact h
  | endReq => exact h
  | readyCheck => exact h

/-- C6: the readiness flag is true at construction, and from any state in
which the coordinator has set it false, no sequence of library operations
ever makes `Ready()` observe true again. -/
theorem ready_monotone (cfg : Config) (g : Graceful) (ops : List LibOp)
    (h : g.ready = false) :
    (New cfg).ready = true ∧ (libSteps ops g).ready = false := by
  refine ⟨rfl, ?_⟩
  induction ops generalizing g with
  | nil => exact h
  | cons op rest ih =>
    exact ih (libStep g op) (libStep_ready_false g op h)

/-- Witness for C6: after `shutdown` on a fresh wrapper, wrapping another
server and serving a tracked request leave the flag false. -/
theorem ready_monotone_witness :
    (New DefaultConfig).ready = true ∧
      (libSteps [LibOp.wrapGRPC, LibOp.serveReq (some (Handler.middleware
        (Handler.app 0)))] (shutdown (New DefaultConfig))).ready = false :=
  ready_monotone DefaultConfig (shutdown (New DefaultConfig)) _ (by decide)

/-! ## Ordering of the metric updates in the drain body (C8) -/

/-- C8 counterexample: in the executed drain trace of a fresh metrics-enabled
wrapper, the shutdown-count increment appears strictly before the readiness
flip — it is the first step of the body, not part of step 8 after the flip,
the stop-accept phase, the in-flight wait and the hard-stop sleep. -/
theorem incShutdowns_before_flip :
    ShutdownStep.incShutdowns ∈ (shutdownBodyRun gMetrics).2 ∧
      ShutdownStep.setReadyFalse ∈ (shutdownBodyRun gMetrics).2 ∧
      (shutdownBodyRun gMetrics).2.indexOf ShutdownStep.incShutdowns <
        (shutdownBodyRun gMetrics).2.indexOf ShutdownStep.setReadyFalse := by
  decide

/-- C8 as the code has it: with metrics enabled, the duration observation is
at step 8 — after the readiness flip, the per-server stop-accept phase, the
in-flight wait and the (possible) hard-stop sleep, and before the completion
log — while the shutdown-count increment is the first step of the body,
before the readiness flip. -/
theorem shutdown_metric_ordering (g : Graceful) (hm : g.metricsEnabled = true) :
    (shutdownBodyRun g).2.indexOf ShutdownStep.incShutdowns = 0 ∧
      (shutdownBodyRun g).2.indexOf ShutdownStep.incShutdowns <
        (shutdownBodyRun g).2.indexOf ShutdownStep.setReadyFalse ∧
      (shutdownBodyRun g).2.indexOf ShutdownStep.setReadyFalse <
        (shutdownBodyRun g).2.indexOf ShutdownStep.observeDuration ∧
      (shutdownBodyRun g).2.indexOf ShutdownStep.stopAcceptServers <
        (shutdownBodyRun g).2.indexOf ShutdownStep.waitInflight ∧
      (shutdownBodyRun g).2.indexOf ShutdownStep.waitInflight <
        (shutdownBodyRun g).2.indexOf ShutdownStep.observeDuration ∧
      (0 < g.config.hardStopTimeout →
        (shutdownBodyRun g).2.indexOf ShutdownStep.hardStopSleep <
          (shutdownBodyRun g).2.indexOf ShutdownStep.observeDuration) ∧
      (shutdownBodyRun g).2.indexOf ShutdownStep.observeDuration <
        (shutdownBodyRun g).2.indexOf ShutdownStep.logCompleted := by
  by_cases h1 : 0 < g.config.loadBalancerDelay <;>
    by_cases h2 : 0 < g.config.hardStopTimeout <;>
      simp [shutdownBodyRun, hm, h1, h2, setReady]

/-- Witness for the metric-ordering theorem at a fresh metrics-enabled
wrapper. -/
theorem shutdown_metric_ordering_witness :
    (shutdownBodyRun gMetrics).2.indexOf ShutdownStep.incShutdowns = 0 ∧
      (shutdownBodyRun gMetrics).2.indexOf ShutdownStep.incShutdowns <
        (shutdownBodyRun gMetrics).2.indexOf ShutdownStep.setReadyFalse ∧
      (shutdownBodyRun gMetrics).2.indexOf ShutdownStep.setReadyFalse <
        (shutdownBodyRun gMetrics).2.indexOf ShutdownStep.observeDuration ∧
      (shutdownBodyRun gMetrics).2.indexOf ShutdownStep.stopAcceptServers <
        (shutdownBodyRun gMetrics).2.indexOf ShutdownStep.waitInflight ∧
      (shutdownBodyRun gMetrics).2.indexOf ShutdownStep.waitInflight <
        (shutdownBodyRun gMetrics).2.indexOf ShutdownStep.observeDuration ∧
      (0 < gMetrics.config.hardStopTimeout →
        (shutdownBodyRun gMetrics).2.indexOf ShutdownStep.hardStopSleep <
          (shutdownBodyRun gMetrics).2.indexOf ShutdownStep.observeDuration) ∧
      (shutdownBodyRun gMetrics).2.indexOf ShutdownStep.observeDuration <
        (shutdownBodyRun gMetrics).2.indexOf ShutdownStep.logCompleted :=
  shutdown_metric_ordering gMetrics (by rfl)

/-! ## Binding failures at wrap/serve time (C5) -/

/-- A server whose configured address will fail to bind in the serving
goroutine. -/
def srvBindFail : HTTPServer := { addr := ":8080", handler := some (Handler.app 0) }

/-- C5 counterexample: `WrapHTTP` on a server whose (asynchronous) bind fails
still returns no error and still registers the server — the binding failure
is not surfaced synchronously and the registry does grow. -/
theorem wrapHTTP_bind_failure_registers :
    (WrapHTTP (New DefaultConfig) srvBindFail false).2 = none ∧
      (WrapHTTP (New DefaultConfig) srvBindFail false).1.httpServers ≠ [] := by
  constructor
  · rfl
  · simp [WrapHTTP, New, srvBindFail, httpMiddleware]

/-- C5 as the code has it: `ServeGRPC` binds synchronously — on failure the
error is returned and the state (registry, started-server count) is
untouched; on success no error is returned.  `WrapHTTP`, by contrast, always
returns `nil`, always starts the serving goroutine and always registers the
server, whatever becomes of its deferred bind. -/
theorem bind_failure_surfacing (g : Graceful) (server : HTTPServer)
    (bindOk : Bool) :
    ((ServeGRPC g false).2 ≠ none ∧ (ServeGRPC g false).1 = g) ∧
      (ServeGRPC g true).2 = none ∧
      (WrapHTTP g server bindOk).2 = none ∧
      (WrapHTTP g server bindOk).1.httpServers.length =
        g.httpServers.length + 1 ∧
      (WrapHTTP g server bindOk).1.serving = g.serving + 1 := by
  refine ⟨⟨?_, rfl⟩, rfl, rfl, ?_, rfl⟩
  · intro h
    exact Option.noConfusion h
  · simp [WrapHTTP]

/-! ## Nil-handler HTTP servers (C10) -/

/-- C10: wrapping an HTTP server whose `Handler` field is nil installs no
middleware (the stored server is unchanged), requests served by it leave the
whole wrapper state — in-flight counter and request metrics included —
untouched, yet the server is registered and is among the servers the
shutdown stop-accept phase drains. -/
theorem wrapHTTP_nil_handler (g : Graceful) (server : HTTPServer)
    (bindOk : Bool) (h : server.handler = none) :
    (WrapHTTP g server bindOk).1.httpServers = g.httpServers ++ [server] ∧
      (WrapHTTPWithListener g server).1.httpServers =
        g.httpServers ++ [server] ∧
      (∀ g0 : Graceful, serveRequest g0 server.handler = g0) ∧
      server ∈ gracefulShutdownHTTPTargets (WrapHTTP g server bindOk).1 := by
  refine ⟨?_, ?_, ?_, ?_⟩
  · simp [WrapHTTP, h]
  · simp [WrapHTTPWithListener, h]
  · intro g0
    rw [h]
    rfl
  · show server ∈ (WrapHTTP g server bindOk).1.httpServers
    simp [WrapHTTP, h]

/-- Witness for C10 at a fresh wrapper and a concrete nil-handler server. -/
theorem wrapHTTP_nil_handler_witness :
    (WrapHTTP (New DefaultConfig) ⟨":9090", none⟩ true).1.httpServers =
        (New DefaultConfig).httpServers ++ [⟨":9090", none⟩] ∧
      (WrapHTTPWithListener (New DefaultConfig) ⟨":9090", none⟩).1.httpServers =
        (New DefaultConfig).httpServers ++ [⟨":9090", none⟩] ∧
      (∀ g0 : Graceful, serveRequest g0 (⟨":9090", none⟩ : HTTPServer).handler = g0) ∧
      (⟨":9090", none⟩ : HTTPServer) ∈ gracefulShutdownHTTPTargets
        (WrapHTTP (New DefaultConfig) ⟨":9090", none⟩ true).1 :=
  wrapHTTP_nil_handler (New DefaultConfig) ⟨":9090", none⟩ true rfl

end Gracewrap
